import Mathlib

/-!
Shallow embedding of the TuyaStub protocol engine (src/index.js) and proofs
about its session state machine and direct mutation interface.

The JS class `TuyaStub` keeps a mutable `state` object (data-point key to
value), an `id`, a `key`, and handles to a TCP server, the active socket,
a UDP broadcast socket and a broadcast interval timer.  We model the
instance fields as a Lean structure, state mutation as explicit state
passing, and each `this.socket.write(this.parser.encode(resp))` as
appending one structured `Frame` to an output list.  A JS `throw` inside
`_handleRequest`'s `forEach` aborts the remaining packets of the batch and
propagates uncaught out of the data handler; we model it as an `Option
StubError` result that stops processing of the rest of the batch.
Wall-clock time (`Math.floor(Date.now() / 1000)`) is passed in as an
explicit `now` parameter.
-/

set_option autoImplicit false

namespace TuyaStubModel

/-- Values storable at a data point: the payloads in play carry booleans,
numbers and strings. -/
inductive Value where
  | bool (b : Bool)
  | num (n : Int)
  | str (s : String)
  deriving DecidableEq, Repr

/-- Command codes from tuyapi's `CommandType` as used by src/index.js
(spec section 6: Query=10, Control=7, Heartbeat=9; the status push uses
the literal 8 in the source). -/
def CommandType.CONTROL : Nat := 7

/-- Status-push command code, written as the literal `8` in the source. -/
def CommandType.STATUS : Nat := 8

/-- Heartbeat command code. -/
def CommandType.HEART_BEAT : Nat := 9

/-- Query command code. -/
def CommandType.DP_QUERY : Nat := 10

/-- Payload of a parsed packet.  JS object fields that may be absent
(`devId`, `t`) are `Option`; `dps` is the data-point map in insertion
order. -/
structure Payload where
  devId : Option String := none
  t : Option Int := none
  dps : List (String × Value) := []
  deriving DecidableEq, Repr

/-- One parsed request packet, as produced by `this.parser.parse`. -/
structure Packet where
  commandByte : Nat
  sequenceN : Nat
  payload : Payload
  deriving DecidableEq, Repr

/-- Structured content of an encoded response frame: either an empty
payload (the `data: \x7b\x7d` ack and the zero-length heartbeat buffer) or a
full-state payload with `devId`, `gwId` and `dps` fields. -/
inductive FrameData where
  | empty
  | status (devId : String) (gwId : String) (dps : List (String × Value))
  deriving DecidableEq, Repr

/-- One response frame written to the socket: its command byte, its
optional `sequenceN` (absent on unsolicited pushes) and its payload. -/
structure Frame where
  commandByte : Nat
  sequenceN : Option Nat
  data : FrameData
  deriving DecidableEq, Repr

/-- Errors thrown by `_handleRequest`: `devId of request does not match`
and `Bad timestamp.`. -/
inductive StubError where
  | identityMismatch
  | badTimestamp
  deriving DecidableEq, Repr

/-- The engine instance.  `server` and `socket` model whether `this.server`
and `this.socket` are set (truthy).  `broadcastInterval` models whether
`this.broadcastInterval` holds a timer handle; `liveTimers` counts interval
timers created and not cleared, and `broadcastSocketGen` counts broadcast
sockets created (the source recreates the socket on every
`startUDPBroadcast` call). -/
structure TuyaStub where
  id : String
  key : String
  ip : String
  state : List (String × Value)
  server : Bool
  socket : Bool
  broadcastInterval : Bool
  liveTimers : Nat
  broadcastSocketGen : Nat
  deriving DecidableEq, Repr

/-- Constructor options (`options.id`, `options.key`, optional
`options.state` and `options.ip`). -/
structure Options where
  id : String
  key : String
  state : Option (List (String × Value)) := none
  ip : Option String := none

/-- The `TuyaStub` constructor: `this.state = options.state ? options.state
: \x7b\x7d`, `this.ip = options.ip ? options.ip : 'localhost'`; no server,
socket or timer exists yet. -/
def mkStub (options : Options) : TuyaStub where
  id := options.id
  key := options.key
  ip := options.ip.getD "localhost"
  state := options.state.getD []
  server := false
  socket := false
  broadcastInterval := false
  liveTimers := 0
  broadcastSocketGen := 0

/-- JS object write `state[property] = value` on an association list with
unique keys: replace the first binding of the key, else append. -/
def setKey : List (String × Value) → String → Value → List (String × Value)
  | [], k, v => [(k, v)]
  | p :: rest, k, v =>
    if p.1 = k then (k, v) :: rest else p :: setKey rest k v

/-- JS object read `state[property]`: first binding of the key, `none` for
the absent-key (`undefined`) case. -/
def getKey (st : List (String × Value)) (k : String) : Option Value :=
  st.lookup k

/-- The guard of the push in `setProperty`: `if (this.server && this.socket)`. -/
def connectionActive (e : TuyaStub) : Bool :=
  e.server && e.socket

/-- `setProperty(property, value)`: writes the state, then, when server and
socket are set, writes one Control-type full-state frame with no sequence
number; returns `this.state[property]`. -/
def setProperty (e : TuyaStub) (property : String) (value : Value) :
    TuyaStub × List Frame × Option Value :=
  let e1 : TuyaStub := { e with state := setKey e.state property value }
  let frames : List Frame :=
    if e1.server && e1.socket then
      [{ commandByte := CommandType.CONTROL, sequenceN := none,
         data := FrameData.status e1.id e1.id e1.state }]
    else []
  (e1, frames, getKey e1.state property)

/-- `getProperty(property)`. -/
def getProperty (e : TuyaStub) (property : String) : Option Value :=
  getKey e.state property

/-- `getState()`. -/
def getState (e : TuyaStub) : List (String × Value) :=
  e.state

/-- `setState(state)`: full replace, returns `this.state`. -/
def setState (e : TuyaStub) (state : List (String × Value)) :
    TuyaStub × List (String × Value) :=
  ({ e with state := state }, state)

/-- The timestamp check of the Control branch:
`Math.abs(now - decryptedData.t) > 10`.  When `t` is absent the JS
expression is `NaN > 10`, which is `false`, so the check passes. -/
def badTimestamp (now : Int) (t : Option Int) : Bool :=
  match t with
  | some tv => (now - tv).natAbs > 10
  | none => false

/-- The `Object.keys(decryptedData.dps).forEach` loop of the Control
branch: apply each data point via `setProperty` in order, collecting every
frame those calls write. -/
def applyDps : TuyaStub → List (String × Value) → TuyaStub × List Frame
  | e, [] => (e, [])
  | e, (k, v) :: rest =>
    let r := setProperty e k v
    let r2 := applyDps r.1 rest
    (r2.1, r.2.1 ++ r2.2)

/-- Handling of one parsed packet inside `_handleRequest`'s `forEach`: the
Query, Control and Heartbeat branches of src/index.js lines 112-186; an
unrecognized command byte falls through with no response.  A JS `throw`
becomes `Except.error`; both throws occur before any state write or socket
write of that packet. -/
def handlePacket (now : Int) (e : TuyaStub) (packet : Packet) :
    Except StubError (TuyaStub × List Frame) :=
  if packet.commandByte = CommandType.DP_QUERY then
    if packet.payload.devId ≠ some e.id then
      Except.error StubError.identityMismatch
    else
      Except.ok (e,
        [{ commandByte := 10, sequenceN := some packet.sequenceN,
           data := FrameData.status e.id e.id e.state }])
  else if packet.commandByte = CommandType.CONTROL then
    let decryptedData := packet.payload
    if decryptedData.devId ≠ some e.id then
      Except.error StubError.identityMismatch
    else if badTimestamp now decryptedData.t then
      Except.error StubError.badTimestamp
    else
      let r := applyDps e decryptedData.dps
      Except.ok (r.1, r.2 ++
        [{ commandByte := 7, sequenceN := some packet.sequenceN,
           data := FrameData.empty },
         { commandByte := 8, sequenceN := none,
           data := FrameData.status r.1.id r.1.id r.1.state }])
  else if packet.commandByte = CommandType.HEART_BEAT then
    Except.ok (e,
      [{ commandByte := CommandType.HEART_BEAT,
         sequenceN := some packet.sequenceN, data := FrameData.empty }])
  else
    Except.ok (e, [])

/-- `_handleRequest(data)` after parsing: the `forEach` over the parsed
packets.  An uncaught throw stops the loop: frames already written stay
written, the remaining packets are never handled, and the error escapes
the data handler. -/
def handleRequest (now : Int) : TuyaStub → List Packet →
    TuyaStub × List Frame × Option StubError
  | e, [] => (e, [], none)
  | e, packet :: rest =>
    match handlePacket now e packet with
    | Except.error err => (e, [], some err)
    | Except.ok (e1, frames) =>
      let r := handleRequest now e1 rest
      (r.1, frames ++ r.2.1, r.2.2)

/-- Effect of `startUDPBroadcast` on the engine's handles: a fresh
broadcast socket is created and bound on every call, but the listening
callback installs an interval timer only when `this.broadcastInterval` is
not yet set. -/
def startUDPBroadcast (e : TuyaStub) : TuyaStub :=
  let e1 : TuyaStub := { e with broadcastSocketGen := e.broadcastSocketGen + 1 }
  if e1.broadcastInterval then e1
  else { e1 with broadcastInterval := true, liveTimers := e1.liveTimers + 1 }

/-- A frame is an unsolicited state push when it carries no sequence
number and its payload is a full-state status payload. -/
def isStatePush (f : Frame) : Bool :=
  f.sequenceN == none &&
    match f.data with
    | FrameData.status _ _ _ => true
    | FrameData.empty => false

/-! Helper lemmas about the state map and the dps loop. -/

theorem getKey_setKey (st : List (String × Value)) (k : String) (v : Value) :
    getKey (setKey st k v) k = some v := by
  induction st with
  | nil => simp [setKey, getKey, List.lookup]
  | cons p rest ih =>
    by_cases h : p.1 = k
    · simp [setKey, h, getKey, List.lookup]
    · simp only [setKey, if_neg h, getKey, List.lookup]
      have hbeq : (k == p.1) = false := by
        simp [beq_eq_false_iff_ne]
        exact fun hk => h hk.symm
      rw [hbeq]
      exact ih

theorem setProperty_fields (e : TuyaStub) (k : String) (v : Value) :
    (setProperty e k v).1.id = e.id ∧ (setProperty e k v).1.server = e.server ∧
    (setProperty e k v).1.socket = e.socket := by
  simp [setProperty]

theorem applyDps_fields (dps : List (String × Value)) (e : TuyaStub) :
    (applyDps e dps).1.id = e.id ∧ (applyDps e dps).1.server = e.server ∧
    (applyDps e dps).1.socket = e.socket := by
  induction dps generalizing e with
  | nil => simp [applyDps]
  | cons kv rest ih =>
    obtain ⟨k, v⟩ := kv
    simpa [applyDps, setProperty] using ih { e with state := setKey e.state k v }

theorem applyDps_length (dps : List (String × Value)) (e : TuyaStub)
    (hs : e.server = true) (hk : e.socket = true) :
    ((applyDps e dps).2).length = dps.length := by
  induction dps generalizing e with
  | nil => simp [applyDps]
  | cons kv rest ih =>
    obtain ⟨k, v⟩ := kv
    simpa [applyDps, setProperty, hs, hk] using
      ih { e with state := setKey e.state k v } hs hk

theorem applyDps_pushes (dps : List (String × Value)) (e : TuyaStub) :
    ((applyDps e dps).2).all
      (fun f => f.commandByte == CommandType.CONTROL &&
        f.sequenceN == none && isStatePush f) = true := by
  induction dps generalizing e with
  | nil => simp [applyDps]
  | cons kv rest ih =>
    obtain ⟨k, v⟩ := kv
    simp only [applyDps, setProperty, List.all_append]
    have hrest := ih { e with state := setKey e.state k v }
    rcases Bool.eq_false_or_eq_true (e.server && e.socket) with hc | hc
    · rw [if_pos hc]
      simp only [Bool.and_eq_true]
      exact And.intro (by rfl) hrest
    · rw [if_neg (by simp [hc])]
      simpa using hrest

/-! Claim theorems. -/

/-- C10: the direct mutation interface is read-after-write consistent and
reports what it wrote: `setProperty` returns the value it stored and a
subsequent `getProperty` of the same key reads it back; `setState` returns
the new state and a subsequent `getState` reads it back. -/
theorem direct_mutation_read_after_write (e : TuyaStub) (k : String) (v : Value)
    (s : List (String × Value)) :
    (setProperty e k v).2.2 = some v ∧
    getProperty (setProperty e k v).1 k = some v ∧
    (setState e s).2 = s ∧
    getState (setState e s).1 = s := by
  refine And.intro ?_ (And.intro ?_ (And.intro rfl rfl))
  · simpa [setProperty] using getKey_setKey e.state k v
  · simpa [setProperty, getProperty] using getKey_setKey e.state k v

/-- C7: `setProperty` stores the value at the key and, exactly when
`this.server` and `this.socket` are both set, additionally writes one
Control-type push of the full current state with no sequence number; with
no active connection it writes nothing. -/
theorem setProperty_updates_and_pushes (e : TuyaStub) (k : String) (v : Value) :
    (setProperty e k v).1.state = setKey e.state k v ∧
    getKey (setProperty e k v).1.state k = some v ∧
    (setProperty e k v).2.1 =
      (if connectionActive e then
        [({ commandByte := CommandType.CONTROL, sequenceN := none,
            data := FrameData.status e.id e.id (setKey e.state k v) } : Frame)]
      else []) ∧
    ((setProperty e k v).2.1 ≠ [] ↔ connectionActive e = true) := by
  refine And.intro rfl (And.intro (getKey_setKey e.state k v) (And.intro rfl ?_))
  simp only [setProperty, connectionActive]
  rcases Bool.eq_false_or_eq_true (e.server && e.socket) with hc | hc
  · rw [if_pos hc]
    simp [hc]
  · rw [if_neg (by simp [hc])]
    simp [hc]

/-- C6: a Heartbeat packet gets exactly one response: an empty-payload
Heartbeat-type frame echoing the request's sequence number; the engine,
and in particular its DeviceState, is returned unchanged and the response
does not depend on the state. -/
theorem heartbeat_pong (now : Int) (e : TuyaStub) (p : Packet)
    (h : p.commandByte = CommandType.HEART_BEAT) :
    handlePacket now e p =
      Except.ok (e,
        [({ commandByte := CommandType.HEART_BEAT,
            sequenceN := some p.sequenceN, data := FrameData.empty } : Frame)]) := by
  simp [handlePacket, h, CommandType.HEART_BEAT, CommandType.DP_QUERY,
    CommandType.CONTROL]

/-- Witness for C6 at the spec's heartbeat scenario: sequence 3. -/
theorem heartbeat_pong_witness :
    handlePacket 0 (mkStub { id := "dev123", key := "k" })
      { commandByte := 9, sequenceN := 3, payload := {} } =
      Except.ok (mkStub { id := "dev123", key := "k" },
        [({ commandByte := CommandType.HEART_BEAT, sequenceN := some 3,
            data := FrameData.empty } : Frame)]) :=
  heartbeat_pong 0 (mkStub { id := "dev123", key := "k" })
    { commandByte := 9, sequenceN := 3, payload := {} } rfl

/-- C4: a Query packet whose payload devId matches the engine's id gets
exactly one response: a Query-type frame (command code 10) with the
request's sequence number and payload devId, gwId both the configured id
and dps the current DeviceState. -/
theorem query_response (now : Int) (e : TuyaStub) (p : Packet)
    (hc : p.commandByte = CommandType.DP_QUERY)
    (hid : p.payload.devId = some e.id) :
    handlePacket now e p =
      Except.ok (e,
        [({ commandByte := 10, sequenceN := some p.sequenceN,
            data := FrameData.status e.id e.id e.state } : Frame)]) := by
  simp [handlePacket, hc, hid, CommandType.DP_QUERY]

/-- Witness for C4 at the spec's query scenario: id dev123, state with
data points 1 false and 2 true, sequence 5. -/
theorem query_response_witness :
    handlePacket 0
      { id := "dev123", key := "k", ip := "localhost",
        state := [("1", Value.bool false), ("2", Value.bool true)],
        server := true, socket := true, broadcastInterval := false,
        liveTimers := 0, broadcastSocketGen := 0 }
      { commandByte := 10, sequenceN := 5,
        payload := { devId := some "dev123" } } =
      Except.ok
        ({ id := "dev123", key := "k", ip := "localhost",
           state := [("1", Value.bool false), ("2", Value.bool true)],
           server := true, socket := true, broadcastInterval := false,
           liveTimers := 0, broadcastSocketGen := 0 },
         [({ commandByte := 10, sequenceN := some 5,
             data := FrameData.status "dev123" "dev123"
               [("1", Value.bool false), ("2", Value.bool true)] } : Frame)]) :=
  query_response 0
    { id := "dev123", key := "k", ip := "localhost",
      state := [("1", Value.bool false), ("2", Value.bool true)],
      server := true, socket := true, broadcastInterval := false,
      liveTimers := 0, broadcastSocketGen := 0 }
    { commandByte := 10, sequenceN := 5,
      payload := { devId := some "dev123" } } rfl rfl

/-- C8: starting the UDP broadcast twice never creates a second concurrent
interval timer: a second call adds no timer, and from a freshly
constructed engine any number of `startUDPBroadcast` calls leaves at most
one live interval timer. -/
theorem startUDPBroadcast_single_timer (e : TuyaStub) (n : Nat) (options : Options) :
    (startUDPBroadcast (startUDPBroadcast e)).liveTimers =
      (startUDPBroadcast e).liveTimers ∧
    (startUDPBroadcast^[n] (mkStub options)).liveTimers ≤ 1 := by
  constructor
  · rcases Bool.eq_false_or_eq_true e.broadcastInterval with hb | hb
    · simp [startUDPBroadcast, hb]
    · simp [startUDPBroadcast, hb]
  · have key : ∀ m : Nat,
        (startUDPBroadcast^[m] (mkStub options)).liveTimers =
          (startUDPBroadcast^[m] (mkStub options)).broadcastInterval.toNat := by
      intro m
      induction m with
      | zero => simp [mkStub]
      | succ m ih =>
        rw [Function.iterate_succ_apply']
        rcases Bool.eq_false_or_eq_true
            (startUDPBroadcast^[m] (mkStub options)).broadcastInterval with hb | hb
        · simp [startUDPBroadcast, hb, ih, hb ▸ ih]
        · simp [startUDPBroadcast, hb]
          simp [hb] at ih
          simpa using ih
    rw [key n]
    exact Bool.toNat_le _

/-- C3: a Control packet whose devId matches but whose timestamp is more
than 10 seconds away from the current time is rejected with the bad
timestamp error before any data point is applied: handling the batch
returns the engine unchanged, writes no frames, and surfaces the error. -/
theorem stale_control_rejected (now tv : Int) (e : TuyaStub) (p : Packet)
    (hc : p.commandByte = CommandType.CONTROL)
    (hid : p.payload.devId = some e.id)
    (ht : p.payload.t = some tv)
    (hskew : (now - tv).natAbs > 10) :
    handleRequest now e [p] = (e, [], some StubError.badTimestamp) := by
  simp [handleRequest, handlePacket, hc, hid, ht, badTimestamp, hskew,
    CommandType.CONTROL, CommandType.DP_QUERY]

/-- Witness for C3 at the spec's stale-timestamp scenario: a Control frame
whose timestamp is 30 seconds in the past. -/
theorem stale_control_rejected_witness :
    handleRequest 1000
      { id := "dev123", key := "k", ip := "localhost",
        state := [("1", Value.bool false), ("2", Value.bool true)],
        server := true, socket := true, broadcastInterval := false,
        liveTimers := 0, broadcastSocketGen := 0 }
      [{ commandByte := 7, sequenceN := 7,
         payload := { devId := some "dev123", t := some 970,
                      dps := [("1", Value.bool true)] } }] =
      ({ id := "dev123", key := "k", ip := "localhost",
         state := [("1", Value.bool false), ("2", Value.bool true)],
         server := true, socket := true, broadcastInterval := false,
         liveTimers := 0, broadcastSocketGen := 0 },
       [], some StubError.badTimestamp) :=
  stale_control_rejected 1000 970
    { id := "dev123", key := "k", ip := "localhost",
      state := [("1", Value.bool false), ("2", Value.bool true)],
      server := true, socket := true, broadcastInterval := false,
      liveTimers := 0, broadcastSocketGen := 0 }
    { commandByte := 7, sequenceN := 7,
      payload := { devId := some "dev123", t := some 970,
                   dps := [("1", Value.bool true)] } }
    rfl rfl rfl (by decide)

/-- Engine for the identity-mismatch scenario: id dev123, connection
active. -/
def engC2 : TuyaStub :=
  { id := "dev123", key := "k", ip := "localhost",
    state := [("1", Value.bool false), ("2", Value.bool true)],
    server := true, socket := true, broadcastInterval := false,
    liveTimers := 0, broadcastSocketGen := 0 }

/-- A Query packet carrying the wrong device id. -/
def pktMismatch : Packet :=
  { commandByte := 10, sequenceN := 5, payload := { devId := some "other" } }

/-- A Heartbeat packet following the mismatching query in the same batch. -/
def pktAfterMismatch : Packet :=
  { commandByte := 9, sequenceN := 3, payload := {} }

/-- C2: handling a batch whose first packet is a Query with a mismatching
devId throws the identity error uncaught out of the handler: no response
bytes are written for that message, but the throw also aborts the rest of
the batch, so the following Heartbeat packet is never answered — the
error escapes the data handler instead of being confined to that one
message. -/
theorem identity_mismatch_aborts_batch :
    handleRequest 1000 engC2 [pktMismatch, pktAfterMismatch] =
      (engC2, [], some StubError.identityMismatch) := by
  rfl

/-- C9: a batch consisting only of Query and Heartbeat packets never
mutates DeviceState: the state after `_handleRequest` equals the state
before it, whether each packet is answered or rejected. -/
theorem query_heartbeat_preserve_state (now : Int) (ps : List Packet) (e : TuyaStub)
    (h : ps.all (fun p => p.commandByte == CommandType.DP_QUERY
        || p.commandByte == CommandType.HEART_BEAT) = true) :
    (handleRequest now e ps).1.state = e.state := by
  induction ps generalizing e with
  | nil => rfl
  | cons p rest ih =>
    rw [List.all_cons, Bool.and_eq_true] at h
    obtain ⟨hp, hrest⟩ := h
    rw [Bool.or_eq_true, beq_iff_eq, beq_iff_eq] at hp
    rcases hp with hq | hh
    · by_cases hid : p.payload.devId = some e.id
      · simp only [handleRequest, handlePacket, hq, if_pos rfl, hid, ne_eq,
          not_true_eq_false, if_neg, ite_false]
        simpa using ih e hrest
      · simp [handleRequest, handlePacket, hq, hid]
    · simp only [handleRequest, handlePacket, hh, CommandType.HEART_BEAT,
        CommandType.DP_QUERY, CommandType.CONTROL]
      norm_num
      simpa using ih e hrest

/-- Witness for C9: a good query followed by a mismatching query and a
heartbeat leaves the state of the C2 engine untouched. -/
theorem query_heartbeat_preserve_state_witness :
    (handleRequest 1000 engC2
      [{ commandByte := 10, sequenceN := 5, payload := { devId := some "dev123" } },
       pktMismatch, pktAfterMismatch]).1.state = engC2.state :=
  query_heartbeat_preserve_state 1000
    [{ commandByte := 10, sequenceN := 5, payload := { devId := some "dev123" } },
     pktMismatch, pktAfterMismatch] engC2 (by decide)

/-- C5: every frame the engine writes while answering a packet either
carries the packet's own sequence number or is an unsolicited full-state
push carrying no sequence number. -/
theorem response_sequence_correlation (now : Int) (e : TuyaStub) (p : Packet)
    (e' : TuyaStub) (fs : List Frame)
    (h : handlePacket now e p = Except.ok (e', fs)) :
    fs.all (fun f => f.sequenceN == some p.sequenceN || isStatePush f) = true := by
  by_cases h10 : p.commandByte = CommandType.DP_QUERY
  · by_cases hid : p.payload.devId = some e.id
    · simp [handlePacket, h10, hid] at h
      obtain ⟨he, hfs⟩ := h
      subst hfs
      simp [isStatePush]
    · simp [handlePacket, h10, hid] at h
  · by_cases h7 : p.commandByte = CommandType.CONTROL
    · by_cases hid : p.payload.devId = some e.id
      · rcases Bool.eq_false_or_eq_true (badTimestamp now p.payload.t) with ht | ht
        · simp [handlePacket, h10, h7, hid, ht, CommandType.CONTROL,
            CommandType.DP_QUERY] at h
        · simp [handlePacket, h10, h7, hid, ht, CommandType.CONTROL,
            CommandType.DP_QUERY] at h
          obtain ⟨he, hfs⟩ := h
          subst hfs
          rw [List.all_append, Bool.and_eq_true]
          constructor
          · have hp := applyDps_pushes p.payload.dps e
            rw [List.all_eq_true] at hp ⊢
            intro f hf
            have hf' := hp f hf
            rw [Bool.and_eq_true, Bool.and_eq_true] at hf'
            simp [hf'.2]
          · simp [isStatePush]
      · simp [handlePacket, h10, h7, hid, CommandType.CONTROL,
          CommandType.DP_QUERY] at h
    · by_cases h9 : p.commandByte = CommandType.HEART_BEAT
      · simp [handlePacket, h10, h7, h9, CommandType.CONTROL,
          CommandType.DP_QUERY, CommandType.HEART_BEAT] at h
        obtain ⟨he, hfs⟩ := h
        subst hfs
        simp [isStatePush]
      · simp [handlePacket, h10, h7, h9] at h
        obtain ⟨he, hfs⟩ := h
        subst hfs
        rfl

/-- Witness for C5: the heartbeat answer to sequence 11 satisfies the
correlation property. -/
theorem response_sequence_correlation_witness :
    ([({ commandByte := CommandType.HEART_BEAT, sequenceN := some 11,
         data := FrameData.empty } : Frame)].all
      (fun f => f.sequenceN == some 11 || isStatePush f)) = true :=
  response_sequence_correlation 0 engC2
    { commandByte := 9, sequenceN := 11, payload := {} } engC2
    [({ commandByte := CommandType.HEART_BEAT, sequenceN := some 11,
        data := FrameData.empty } : Frame)] rfl

/-- Engine for the control scenario: id dev123, state with data points 1
false and 2 true, connection active. -/
def engC1 : TuyaStub :=
  { id := "dev123", key := "k", ip := "localhost",
    state := [("1", Value.bool false), ("2", Value.bool true)],
    server := true, socket := true, broadcastInterval := false,
    liveTimers := 0, broadcastSocketGen := 0 }

/-- The spec's control scenario packet: devId dev123, current timestamp,
one data point, sequence 7. -/
def pktC1 : Packet :=
  { commandByte := 7, sequenceN := 7,
    payload := { devId := some "dev123", t := some 1000,
                 dps := [("1", Value.bool true)] } }

/-- C1 counterexample: at the spec's own control scenario the engine
writes three frames, not two — `setProperty`, called once per applied
data point, writes its own full-state push before the ack and the status
update are written. -/
theorem control_scenario_not_two_frames :
    (handlePacket 1000 engC1 pktC1).map (fun r => r.2.length) = Except.ok 3 ∧
    ¬ (handlePacket 1000 engC1 pktC1).map (fun r => r.2.length) = Except.ok 2 := by
  constructor
  · rfl
  · intro hcon
    rw [show (handlePacket 1000 engC1 pktC1).map (fun r => r.2.length) =
        Except.ok 3 from rfl] at hcon
    simp at hcon

/-- C1 amended: a Control packet that passes devId and timestamp
validation against an engine with an active connection makes the engine
write, first, one Control-type full-state push with no sequence number
per data point applied (in dps order), then the empty-payload ack of
command type Control carrying the request's sequence number, then one
status-update frame (command code 8, no sequence number) carrying the
full updated DeviceState; nothing else is written. -/
theorem control_validated_emissions (now : Int) (e : TuyaStub) (p : Packet)
    (hs : e.server = true) (hk : e.socket = true)
    (hc : p.commandByte = CommandType.CONTROL)
    (hid : p.payload.devId = some e.id)
    (ht : badTimestamp now p.payload.t = false) :
    handlePacket now e p =
      Except.ok ((applyDps e p.payload.dps).1,
        (applyDps e p.payload.dps).2 ++
          [({ commandByte := 7, sequenceN := some p.sequenceN,
              data := FrameData.empty } : Frame),
           ({ commandByte := 8, sequenceN := none,
              data := FrameData.status e.id e.id
                (applyDps e p.payload.dps).1.state } : Frame)]) ∧
    ((applyDps e p.payload.dps).2).length = p.payload.dps.length ∧
    ((applyDps e p.payload.dps).2).all
      (fun f => f.commandByte == CommandType.CONTROL && f.sequenceN == none) = true := by
  refine And.intro ?_ (And.intro (applyDps_length p.payload.dps e hs hk) ?_)
  · have hidEq := (applyDps_fields p.payload.dps e).1
    simp [handlePacket, hc, hid, ht, hidEq, CommandType.CONTROL,
      CommandType.DP_QUERY]
  · have hp := applyDps_pushes p.payload.dps e
    rw [List.all_eq_true] at hp ⊢
    intro f hf
    have hf' := hp f hf
    rw [Bool.and_eq_true, Bool.and_eq_true] at hf'
    rw [Bool.and_eq_true]
    exact And.intro hf'.1.1 hf'.1.2

/-- Witness for C1's amended theorem at the control scenario engine and
packet. -/
theorem control_validated_emissions_witness :
    handlePacket 1000 engC1 pktC1 =
      Except.ok ((applyDps engC1 pktC1.payload.dps).1,
        (applyDps engC1 pktC1.payload.dps).2 ++
          [({ commandByte := 7, sequenceN := some pktC1.sequenceN,
              data := FrameData.empty } : Frame),
           ({ commandByte := 8, sequenceN := none,
              data := FrameData.status engC1.id engC1.id
                (applyDps engC1 pktC1.payload.dps).1.state } : Frame)]) ∧
    ((applyDps engC1 pktC1.payload.dps).2).length = pktC1.payload.dps.length ∧
    ((applyDps engC1 pktC1.payload.dps).2).all
      (fun f => f.commandByte == CommandType.CONTROL && f.sequenceN == none) = true :=
  control_validated_emissions 1000 engC1 pktC1 rfl rfl rfl rfl rfl

end TuyaStubModel
